import Mathlib

/-!
Verification development for the claude-extend repository
(src/claude_extend/{tools,utils,main}.py).

The Python code is shallowly embedded: pure fragments become Lean
functions; every external effect (spawning the host process via
subprocess.run, shutil.which lookups, stderr status messages) is made
explicit.  A function that performs effects returns an `Eff` value
recording the status messages printed, the host commands spawned, and
either a normal result or a propagated Python exception.
-/

namespace ClaudeExtend

/-- Python substring test `needle in hay` on strings: some suffix of
`hay` starts with `needle`. -/
def pyIn (needle hay : String) : Bool :=
  hay.data.tails.any fun t => needle.data.isPrefixOf t

/-- Fuel-indexed scanner behind `pyReplace`.  Scans `s` left to right;
whenever `pat` matches at the current position it emits `rep` and skips
`pat.length` characters, otherwise it copies one character.  This is the
semantics of Python `str.replace` for a non-empty pattern (the source
only ever uses the literal pattern "{project_dir}"); an empty pattern is
left as the identity.  One unit of fuel is spent per emitted step, and
every step consumes at least one character of `s`, so `s.length` fuel
always suffices. -/
def replaceFuel (pat rep : List Char) : Nat → List Char → List Char
  | 0, s => s
  | _ + 1, [] => []
  | fuel + 1, c :: rest =>
    if pat.isPrefixOf (c :: rest) && !pat.isEmpty then
      rep ++ replaceFuel pat rep fuel (List.drop (pat.length - 1) rest)
    else
      c :: replaceFuel pat rep fuel rest

/-- Python `s.replace(pat, rep)` (non-empty `pat`). -/
def pyReplace (s pat rep : String) : String :=
  String.mk (replaceFuel pat.data rep.data s.data.length s.data)

/-- Python exceptions that the embedded code can raise or catch. -/
inductive PyExc where
  | typeError
  | fileNotFoundError
  | subprocessError
  | jsonError
  | keyError
  deriving DecidableEq, Repr

/-- Outcome of one `subprocess.run(cmd, ...)` call on the external host:
either the process ran to completion (with some exit code and captured
standard output), or the attempt raised `subprocess.SubprocessError`, or
the process could not be launched at all (`FileNotFoundError`/OSError,
e.g. the host binary is absent). -/
inductive SpawnOutcome where
  | ran (exitCode : Nat) (stdout : String)
  | subprocessError
  | launchFailure
  deriving Repr

/-- The ambient process environment: behaviour of the external host per
spawned command, `shutil.which` resolution, and the current working
directory (`os.getcwd()`). -/
structure Env where
  spawn : List String → SpawnOutcome
  which : String → Option String
  cwd : String

/-- One `print_message(level, text)` status line. -/
structure Msg where
  level : String
  text : String
  deriving DecidableEq, Repr

/-- Result of running an effectful embedded fragment: the status
messages printed, the host commands spawned (in order), and either the
returned value or a propagated Python exception. -/
structure Eff (α : Type) where
  msgs : List Msg
  cmds : List (List String)
  val : Except PyExc α

/-- Effect sequencing: an uncaught exception aborts the rest of the
fragment, keeping the effects performed so far. -/
def Eff.bind {α β : Type} (x : Eff α) (f : α → Eff β) : Eff β :=
  match x.val with
  | .error e => ⟨x.msgs, x.cmds, .error e⟩
  | .ok a =>
    let y := f a
    ⟨x.msgs ++ y.msgs, x.cmds ++ y.cmds, y.val⟩

/-- Effect-free return. -/
def Eff.pure {α : Type} (a : α) : Eff α := ⟨[], [], .ok a⟩

/-- MCPTool (tools.py lines 11-20): one tool descriptor. -/
structure MCPTool where
  name : String
  description : String
  prerequisite : String
  error_message : String
  install_command : List String
  deriving Repr

/-- The host query command `['claude', 'mcp', 'list']`. -/
def listCmd : List String := ["claude", "mcp", "list"]

/-- MCPTool.check_prerequisites (tools.py lines 22-26). -/
def MCPTool.check_prerequisites (t : MCPTool) (env : Env) : Bool :=
  if t.prerequisite = "npm" then
    (env.which "npm").isSome || (env.which "npx").isSome
  else
    (env.which t.prerequisite).isSome

/-- MCPTool.is_installed (tools.py lines 28-34): spawn
`claude mcp list` capturing stdout (the exit code is ignored and a
non-zero exit does not raise because `check=True` is not passed), and
test whether `f"{self.name}:"` occurs in the captured stdout.  The
`except subprocess.SubprocessError` clause catches exactly
`SpawnOutcome.subprocessError`; a launch failure raises
`FileNotFoundError`, which that clause does not catch. -/
def MCPTool.is_installed (t : MCPTool) (env : Env) : Eff Bool :=
  match env.spawn listCmd with
  | .ran _ out => ⟨[], [listCmd], .ok (pyIn (t.name ++ ":") out)⟩
  | .subprocessError => ⟨[], [listCmd], .ok false⟩
  | .launchFailure => ⟨[], [listCmd], .error .fileNotFoundError⟩

/-- Placeholder substitution from tools.py line 49:
`[cmd.replace('{project_dir}', project_dir) for cmd in self.install_command]`. -/
def substituteCommand (install_command : List String) (project_dir : String) : List String :=
  install_command.map fun cmd => pyReplace cmd "{project_dir}" project_dir

/-- Body of MCPTool.install after the `is_installed` query (tools.py
lines 41-55), parameterised by the result `chk` of that query so that
proofs can case on it.  `subprocess.run(command, check=True)` raises
`CalledProcessError` on a non-zero exit, which the `except` clause
catches (returning False); a launch failure or any other
`SubprocessError` is not caught and propagates. -/
def installCore (t : MCPTool) (env : Env) (project_dir : String) (chk : Eff Bool) : Eff Bool :=
  match chk.val with
  | .error e => ⟨chk.msgs, chk.cmds, .error e⟩
  | .ok true => ⟨chk.msgs ++ [⟨"success", t.name ++ " is already installed"⟩], chk.cmds, .ok true⟩
  | .ok false =>
    let command := substituteCommand t.install_command project_dir
    match env.spawn command with
    | .ran 0 _ =>
      ⟨chk.msgs ++ [⟨"info", "Installing " ++ t.description ++ "..."⟩,
                    ⟨"success", t.name ++ " installed"⟩],
       chk.cmds ++ [command], .ok true⟩
    | .ran (_ + 1) _ =>
      ⟨chk.msgs ++ [⟨"info", "Installing " ++ t.description ++ "..."⟩,
                    ⟨"error", "Failed to install " ++ t.name⟩],
       chk.cmds ++ [command], .ok false⟩
    | .subprocessError =>
      ⟨chk.msgs ++ [⟨"info", "Installing " ++ t.description ++ "..."⟩],
       chk.cmds ++ [command], .error .subprocessError⟩
    | .launchFailure =>
      ⟨chk.msgs ++ [⟨"info", "Installing " ++ t.description ++ "..."⟩],
       chk.cmds ++ [command], .error .fileNotFoundError⟩

/-- MCPTool.install (tools.py lines 36-55).  `project_dir=None` defaults
to the current working directory. -/
def MCPTool.install (t : MCPTool) (env : Env) (project_dir : Option String) : Eff Bool :=
  installCore t env (project_dir.getD env.cwd) (t.is_installed env)

/-- The host removal command `['claude', 'mcp', 'remove', name]`. -/
def removeCmd (name : String) : List String := ["claude", "mcp", "remove", name]

/-- Body of MCPTool.remove after the `is_installed` query (tools.py
lines 59-73), parameterised by the result `chk` of that query. -/
def removeCore (t : MCPTool) (env : Env) (chk : Eff Bool) : Eff Bool :=
  match chk.val with
  | .error e => ⟨chk.msgs, chk.cmds, .error e⟩
  | .ok false => ⟨chk.msgs ++ [⟨"info", t.name ++ " is not installed"⟩], chk.cmds, .ok true⟩
  | .ok true =>
    match env.spawn (removeCmd t.name) with
    | .ran 0 _ =>
      ⟨chk.msgs ++ [⟨"info", "Removing " ++ t.description ++ "..."⟩,
                    ⟨"success", t.name ++ " removed"⟩],
       chk.cmds ++ [removeCmd t.name], .ok true⟩
    | .ran (_ + 1) _ =>
      ⟨chk.msgs ++ [⟨"info", "Removing " ++ t.description ++ "..."⟩,
                    ⟨"error", "Failed to remove " ++ t.name⟩],
       chk.cmds ++ [removeCmd t.name], .ok false⟩
    | .subprocessError =>
      ⟨chk.msgs ++ [⟨"info", "Removing " ++ t.description ++ "..."⟩],
       chk.cmds ++ [removeCmd t.name], .error .subprocessError⟩
    | .launchFailure =>
      ⟨chk.msgs ++ [⟨"info", "Removing " ++ t.description ++ "..."⟩],
       chk.cmds ++ [removeCmd t.name], .error .fileNotFoundError⟩

/-- MCPTool.remove (tools.py lines 57-73). -/
def MCPTool.remove (t : MCPTool) (env : Env) : Eff Bool :=
  removeCore t env (t.is_installed env)

/-- Raw per-tool entry of the external JSON config: which of the five
required fields are present (utils.py lines 99-123; a missing field
makes the `tool_config[...]` accesses in tools.py lines 98-102 raise
KeyError). -/
structure RawTool where
  name : Option String
  description : Option String
  prerequisite : Option String
  error_message : Option String
  install_command : Option (List String)

/-- Content of a located external config file, as seen by
`load_external_tools_config`: either opening/`json.load` raises, or the
document is an object whose optional "tools" key maps names to raw
entries (insertion-ordered). -/
inductive JsonDoc where
  | malformed
  | object (tools : Option (List (String × RawTool)))

/-- load_external_tools_config (utils.py lines 99-123):
`config_data.get('tools', {})` — a parsed document without a "tools"
key yields the empty mapping; a parse/read failure raises. -/
def load_external_tools_config : JsonDoc → Except PyExc (List (String × RawTool))
  | .malformed => .error .jsonError
  | .object none => .ok []
  | .object (some tools) => .ok tools

/-- Conversion of one raw config entry to an MCPTool (tools.py lines
97-103); `none` models the KeyError raised by a missing required field. -/
def convertRaw (r : RawTool) : Option MCPTool :=
  match r.name, r.description, r.prerequisite, r.error_message, r.install_command with
  | some n, some d, some p, some e, some ic => some ⟨n, d, p, e, ic⟩
  | _, _, _, _, _ => none

/-- Conversion loop over the config entries (tools.py lines 95-104);
`none` models the KeyError aborting the whole `try` block. -/
def convertTools : List (String × RawTool) → Option (List (String × MCPTool))
  | [] => some []
  | (k, r) :: rest =>
    match convertRaw r, convertTools rest with
    | some t, some l => some ((k, t) :: l)
    | _, _ => none

/-- Rendering of `str(e)` in the warning f-string of tools.py line 107
(the exact text of a Python exception is outside the model). -/
def excMessage : PyExc → String
  | .typeError => "TypeError"
  | .fileNotFoundError => "FileNotFoundError"
  | .subprocessError => "SubprocessError"
  | .jsonError => "JSONDecodeError"
  | .keyError => "KeyError"

/-- The hardcoded default registry (tools.py lines 111-135). -/
def defaultTools : List (String × MCPTool) :=
  [("serena",
    ⟨"serena",
     "Serena - Semantic code analysis and intelligent IDE assistant",
     "uvx",
     "uvx not found. Please install uv first: curl -LsSf https://astral.sh/uv/install.sh | sh",
     ["claude", "mcp", "add", "serena", "--", "uvx", "--from",
      "git+https://github.com/oraios/serena", "serena", "start-mcp-server",
      "--context", "ide-assistant", "--project", "{project_dir}"]⟩),
   ("basic-memory",
    ⟨"basic-memory",
     "Basic Memory - Enhanced memory capabilities for Claude",
     "basic-memory",
     "basic-memory not found. Please install it first. See: https://docs.basicmemory.com/getting-started/#installation",
     ["claude", "mcp", "add", "basic-memory", "basic-memory", "mcp"]⟩),
   ("gemini-cli",
    ⟨"gemini-cli",
     "Gemini CLI - Google Gemini integration tool",
     "npm",
     "npm/npx not found. Please install Node.js first.",
     ["claude", "mcp", "add", "gemini-cli", "--", "npx", "-y", "gemini-mcp-tool"]⟩)]

/-- MCPToolRegistry._load_tools (tools.py lines 82-135).  `config` is
the result of `get_config_path` together with the located file's
content (`none` = no config file found); `path` is the display form of
the config path used in the "Loaded tools from config" message.
Returns the tool mapping together with the status messages printed. -/
def loadTools (config : Option JsonDoc) (path : String) :
    List (String × MCPTool) × List Msg :=
  match config with
  | none => (defaultTools, [])
  | some doc =>
    match load_external_tools_config doc with
    | .error e =>
      (defaultTools,
       [⟨"warning", "Failed to load external config: " ++ excMessage e⟩,
        ⟨"info", "Falling back to default tool registry"⟩])
    | .ok raw =>
      match convertTools raw with
      | some ts => (ts, [⟨"info", "Loaded tools from config: " ++ path⟩])
      | none =>
        (defaultTools,
         [⟨"info", "Loaded tools from config: " ++ path⟩,
          ⟨"warning", "Failed to load external config: " ++ excMessage .keyError⟩,
          ⟨"info", "Falling back to default tool registry"⟩])

/-- MCPToolRegistry (tools.py lines 76-80): the `tools` dict, modelled
as an insertion-ordered association list with unique keys. -/
structure MCPToolRegistry where
  tools : List (String × MCPTool)

/-- MCPToolRegistry construction (tools.py lines 79-80), also returning
the messages printed while loading. -/
def mkRegistry (config : Option JsonDoc) (path : String) : MCPToolRegistry × List Msg :=
  ((⟨(loadTools config path).fst⟩ : MCPToolRegistry), (loadTools config path).snd)

/-- MCPToolRegistry.get_tool (tools.py lines 137-139): `dict.get`. -/
def MCPToolRegistry.get_tool (r : MCPToolRegistry) (name : String) : Option MCPTool :=
  (r.tools.find? fun p => p.fst == name).map Prod.snd

/-- MCPToolRegistry.get_tool_names (tools.py lines 145-147). -/
def MCPToolRegistry.get_tool_names (r : MCPToolRegistry) : List String :=
  r.tools.map Prod.fst

/-- Loop of the list comprehension in MCPToolRegistry.get_installed_tools
(tools.py line 151): `tool.is_installed()` is evaluated afresh for every
tool, left to right. -/
def installedLoop (env : Env) : List (String × MCPTool) → Eff (List String)
  | [] => Eff.pure []
  | (n, t) :: rest =>
    Eff.bind (t.is_installed env) fun b =>
      Eff.bind (installedLoop env rest) fun l =>
        Eff.pure (if b then n :: l else l)

/-- MCPToolRegistry.get_installed_tools (tools.py lines 149-151). -/
def MCPToolRegistry.get_installed_tools (r : MCPToolRegistry) (env : Env) : Eff (List String) :=
  installedLoop env r.tools

/-- Loop of the list comprehension in MCPToolRegistry.get_available_tools
(tools.py line 155). -/
def availableLoop (env : Env) : List (String × MCPTool) → Eff (List String)
  | [] => Eff.pure []
  | (n, t) :: rest =>
    Eff.bind (t.is_installed env) fun b =>
      Eff.bind (availableLoop env rest) fun l =>
        Eff.pure (if b then l else n :: l)

/-- MCPToolRegistry.get_available_tools (tools.py lines 153-155). -/
def MCPToolRegistry.get_available_tools (r : MCPToolRegistry) (env : Env) : Eff (List String) :=
  availableLoop env r.tools

/-- Keyword parameter names accepted by MCPTool.install, from its `def`
line (tools.py line 36: `def install(self, project_dir=None)`). -/
def installKeywordParams : List String := ["project_dir"]

/-- Keyword parameter names accepted by MCPTool.remove (tools.py line
57: `def remove(self)`). -/
def removeKeywordParams : List String := []

/-- Keyword parameter names accepted by MCPTool.is_installed (tools.py
line 28: `def is_installed(self)`). -/
def isInstalledKeywordParams : List String := []

/-- Python keyword-argument binding at a call site that passes only
keyword arguments: a keyword absent from the callee's parameter list
raises TypeError before the callee's body runs (so none of the body's
effects happen). -/
def callKw {α : Type} (params kwargs : List String) (body : Eff α) : Eff α :=
  if kwargs.all (fun k => params.contains k) then body
  else ⟨[], [], .error .typeError⟩

/-- Body of the per-name iteration of the cmd_add loop (main.py lines
47-63).  Line 59 calls `tool.install(registry=registry)`. -/
def processAddName (r : MCPToolRegistry) (env : Env) (tool_name : String) : Eff Unit :=
  match r.get_tool tool_name with
  | none =>
    ⟨[⟨"error", "Unknown tool: " ++ tool_name⟩,
      ⟨"info", "Available tools: " ++ String.intercalate ", " r.get_tool_names⟩],
     [], .ok ()⟩
  | some tool =>
    if !tool.check_prerequisites env then
      ⟨[⟨"info", "Processing: " ++ tool.description⟩,
        ⟨"error", "Prerequisites not met for " ++ tool_name ++ ". " ++ tool.error_message⟩,
        ⟨"error", "✗ Failed to install " ++ tool_name⟩],
       [], .ok ()⟩
    else
      Eff.bind (⟨[⟨"info", "Processing: " ++ tool.description⟩], [], .ok ()⟩ : Eff Unit) fun _ =>
        Eff.bind (callKw installKeywordParams ["registry"] (tool.install env none)) fun ok =>
          if ok then
            ⟨[⟨"success", "✓ " ++ tool_name ++ " installed successfully"⟩], [], .ok ()⟩
          else
            ⟨[⟨"error", "✗ Failed to install " ++ tool_name⟩], [], .ok ()⟩

/-- The `for tool_name in args.tools` loop of cmd_add (main.py lines
47-63); an uncaught exception from one iteration aborts the loop. -/
def cmdAddLoop (r : MCPToolRegistry) (env : Env) : List String → Eff Unit
  | [] => Eff.pure ()
  | n :: rest => Eff.bind (processAddName r env n) fun _ => cmdAddLoop r env rest

/-- Body of the per-name iteration of the cmd_remove loop (main.py lines
75-88).  Line 84 calls `tool.remove(registry=registry)`. -/
def processRemoveName (r : MCPToolRegistry) (env : Env) (tool_name : String) : Eff Unit :=
  match r.get_tool tool_name with
  | none =>
    ⟨[⟨"error", "Unknown tool: " ++ tool_name⟩,
      ⟨"info", "Available tools: " ++ String.intercalate ", " r.get_tool_names⟩],
     [], .ok ()⟩
  | some tool =>
    Eff.bind (⟨[⟨"info", "Processing: " ++ tool.description⟩], [], .ok ()⟩ : Eff Unit) fun _ =>
      Eff.bind (callKw removeKeywordParams ["registry"] (tool.remove env)) fun ok =>
        if ok then
          ⟨[⟨"success", "✓ " ++ tool_name ++ " removed successfully"⟩], [], .ok ()⟩
        else
          ⟨[⟨"error", "✗ Failed to remove " ++ tool_name⟩], [], .ok ()⟩

/-- The `for tool_name in args.tools` loop of cmd_remove (main.py lines
75-88). -/
def cmdRemoveLoop (r : MCPToolRegistry) (env : Env) : List String → Eff Unit
  | [] => Eff.pure ()
  | n :: rest => Eff.bind (processRemoveName r env n) fun _ => cmdRemoveLoop r env rest

/-- One iteration of the menu loop in _display_tool_menu (main.py lines
98-101): the f-string first evaluates
`tool.is_installed(registry=registry)` and only then prints the menu
line ("stderr" marks a raw `print(..., file=sys.stderr)`); `tools[name]`
raises KeyError when the name is absent from the dict. -/
def menuItem (tools : List (String × MCPTool)) (env : Env) (i : Nat) (name : String) : Eff Unit :=
  match (tools.find? fun p => p.fst == name).map Prod.snd with
  | none => ⟨[], [], .error .keyError⟩
  | some tool =>
    Eff.bind (callKw isInstalledKeywordParams ["registry"] (tool.is_installed env)) fun inst =>
      ⟨[⟨"stderr", "  " ++ toString i ++ ") " ++ tool.description ++
          (if inst then " (installed)" else "")⟩],
       [], .ok ()⟩

/-- Menu loop of _display_tool_menu over `enumerate(tool_list, 1)`. -/
def menuLoop (tools : List (String × MCPTool)) (env : Env) (i : Nat) : List String → Eff Unit
  | [] => Eff.pure ()
  | n :: rest => Eff.bind (menuItem tools env i n) fun _ => menuLoop tools env (i + 1) rest

/-- _display_tool_menu (main.py lines 92-105), at its only call site
(main.py line 138) where `tool_list = list(tools.keys())`. -/
def displayToolMenu (tools : List (String × MCPTool)) (env : Env) : Eff Unit :=
  Eff.bind (⟨[⟨"stderr", ""⟩, ⟨"info", "Available MCP Tools:"⟩, ⟨"stderr", ""⟩],
             [], .ok ()⟩ : Eff Unit) fun _ =>
    Eff.bind (menuLoop tools env 1 (tools.map Prod.fst)) fun _ =>
      ⟨[⟨"stderr", "  a) Install all available tools"⟩,
        ⟨"stderr", "  q) Quit"⟩, ⟨"stderr", ""⟩],
       [], .ok ()⟩

/-- The installed-state query prints no status message. -/
theorem is_installed_msgs (t : MCPTool) (env : Env) : (t.is_installed env).msgs = [] := by
  cases h : env.spawn listCmd <;> simp [MCPTool.is_installed, h]

/-- The installed-state query spawns exactly the host list command. -/
theorem is_installed_cmds (t : MCPTool) (env : Env) : (t.is_installed env).cmds = [listCmd] := by
  cases h : env.spawn listCmd <;> simp [MCPTool.is_installed, h]

/-- Decomposition of the installed-state query into its fixed effects
and its value. -/
theorem is_installed_eq (t : MCPTool) (env : Env) :
    t.is_installed env = ⟨[], [listCmd], (t.is_installed env).val⟩ := by
  cases h : env.spawn listCmd <;> simp [MCPTool.is_installed, h]

/-- Python's substring test `pyIn` agrees with list-infix occurrence. -/
theorem pyIn_iff_occurs (n h : String) : pyIn n h = true ↔ n.data <:+: h.data := by
  unfold pyIn
  rw [List.any_eq_true]
  constructor
  · rintro ⟨t, ht, hp⟩
    rw [List.mem_tails] at ht
    rw [ List.isPrefixOf_iff_prefix] at hp
    exact List.infix_iff_prefix_suffix.mpr ⟨t, hp, ht⟩
  · intro hi
    obtain ⟨t, hp, hs⟩ := List.infix_iff_prefix_suffix.mp hi
    exact ⟨t, (List.mem_tails _ _).mpr hs, ( List.isPrefixOf_iff_prefix).mpr hp⟩

/-- Replacing in the empty string yields the empty string. -/
theorem replaceFuel_nil (pat rep : List Char) (fuel : Nat) :
    replaceFuel pat rep fuel [] = [] := by
  cases fuel <;> rfl

/-- A string in which the pattern does not occur is left unchanged. -/
theorem replaceFuel_of_not_in (pat rep : List Char) :
    ∀ (fuel : Nat) (s : List Char),
      (s.tails.any fun t => pat.isPrefixOf t) = false →
      replaceFuel pat rep fuel s = s := by
  intro fuel
  induction fuel with
  | zero => intro s _; rfl
  | succ n ih =>
    intro s hs
    cases s with
    | nil => rfl
    | cons c rest =>
      rw [List.tails_cons, List.any_cons] at hs
      have h1 : pat.isPrefixOf (c :: rest) = false := by
        cases h : pat.isPrefixOf (c :: rest) <;> simp [h] at hs ⊢
      have h2 : (rest.tails.any fun t => pat.isPrefixOf t) = false := by
        cases h : rest.tails.any fun t => pat.isPrefixOf t <;> simp [h, h1] at hs ⊢
      simp [replaceFuel, h1, ih rest h2]

/-- Replacing the pattern by itself: a string equal to the (non-empty)
pattern becomes exactly the replacement. -/
theorem replaceFuel_self (pat rep : List Char) (h : pat ≠ []) :
    replaceFuel pat rep pat.length pat = rep := by
  cases pat with
  | nil => exact absurd rfl h
  | cons c rest =>
    have h1 : List.isPrefixOf (c :: rest) (c :: rest) = true :=
      ( List.isPrefixOf_iff_prefix).mpr (List.prefix_refl _)
    simp [replaceFuel, h1, List.drop_length, replaceFuel_nil]

/-- A token in which the placeholder does not occur is unchanged by
`pyReplace`. -/
theorem pyReplace_of_not_in (tok pat rep : String) (h : pyIn pat tok = false) :
    pyReplace tok pat rep = tok := by
  unfold pyReplace
  rw [replaceFuel_of_not_in pat.data rep.data tok.data.length tok.data h]

/-- The bare placeholder token is replaced by the path itself. -/
theorem pyReplace_placeholder (pd : String) :
    pyReplace "{project_dir}" "{project_dir}" pd = pd := by
  show String.mk (replaceFuel "{project_dir}".data pd.data 13 "{project_dir}".data) = pd
  have h13 : ("{project_dir}".data).length = 13 := by decide
  rw [show (13 : Nat) = ("{project_dir}".data).length from h13.symm]
  rw [replaceFuel_self "{project_dir}".data pd.data (by decide)]

/-- Concrete tool fixture (mirrors the test fixture of the repository's
test suite). -/
def tTool : MCPTool :=
  ⟨"test-tool", "Test Tool", "python", "Python not found",
   ["echo", "installing", "{project_dir}"]⟩

/-- Concrete tool named "foo", for the prefix false-positive example. -/
def fooTool : MCPTool := ⟨"foo", "Foo", "python", "no python", ["echo", "foo"]⟩

/-- Concrete tool named "memory", whose name is a suffix of the default
tool name "basic-memory". -/
def memTool : MCPTool := ⟨"memory", "Memory", "python", "no python", ["echo", "memory"]⟩

/-- Environment whose host list output is "basic-memory: installed". -/
def envBasicMem : Env :=
  ⟨fun _ => .ran 0 "basic-memory: installed", fun _ => some "/usr/bin/stub", "/work"⟩

/-- The registry built from the hardcoded defaults (no external config). -/
def defaultRegistry : MCPToolRegistry := ⟨defaultTools⟩

/-- Environment: host list output empty, every executable resolvable. -/
def env0 : Env := ⟨fun _ => .ran 0 "", fun _ => some "/usr/bin/stub", "/work"⟩

/-- Environment whose host list output is "foobar: installed". -/
def envFoobar : Env :=
  ⟨fun _ => .ran 0 "foobar: installed", fun _ => some "/usr/bin/stub", "/work"⟩

/-- Environment in which every spawn attempt fails to launch. -/
def envLaunchFail : Env := ⟨fun _ => .launchFailure, fun _ => some "/usr/bin/stub", "/work"⟩

/-- Environment in which every spawn attempt raises SubprocessError. -/
def envSubErr : Env := ⟨fun _ => .subprocessError, fun _ => some "/usr/bin/stub", "/work"⟩

/-- Environment: the list query succeeds with empty output, but any
other command (an install attempt) fails to launch. -/
def envInstallLaunchFail : Env :=
  ⟨fun c => if c == listCmd then .ran 0 "" else .launchFailure,
   fun _ => some "/usr/bin/stub", "/work"⟩

/-- Environment: the list query succeeds with empty output, but any
other command exits with code 1. -/
def envInstallExit1 : Env :=
  ⟨fun c => if c == listCmd then .ran 0 "" else .ran 1 "",
   fun _ => some "/usr/bin/stub", "/work"⟩

/-- Environment whose host list output reports tTool installed. -/
def envInstalled : Env :=
  ⟨fun _ => .ran 0 "test-tool: ready", fun _ => some "/usr/bin/stub", "/work"⟩

/-- Claim C3, counterexample: the claim asserts that with host output
"foobar: installed" the installed check for name "foo" returns true (a
prefix false positive).  The code tests for the literal "foo:", which
does not occur in "foobar: installed" (the colon marker prevents this
particular prefix collision), so the check returns false. -/
theorem c3_counterexample :
    (fooTool.is_installed envFoobar).val = Except.ok false ∧
    ¬(fooTool.is_installed envFoobar).val = Except.ok true := by
  refine ⟨rfl, fun h => ?_⟩
  rw [show (fooTool.is_installed envFoobar).val = Except.ok false from rfl] at h
  exact Bool.false_ne_true (Except.ok.inj h)

/-- Claim C3 (amended): when the host list query yields output text, the
installed-state check returns true iff the literal string `name ++ ":"`
occurs as a substring of that output.  With output "foobar: installed"
the check for "foo" returns false (the colon marker blocks that prefix
collision); the documented substring fragility is real, but as a
name-plus-colon collision, e.g. name "memory" against output
"basic-memory: installed" yields a false positive. -/
theorem c3_marker_substring_semantics :
    (∀ (t : MCPTool) (env : Env) (e : Nat) (out : String),
        env.spawn listCmd = SpawnOutcome.ran e out →
        (t.is_installed env).val = Except.ok (pyIn (t.name ++ ":") out) ∧
        ((t.is_installed env).val = Except.ok true ↔ (t.name ++ ":").data <:+: out.data)) ∧
    (fooTool.is_installed envFoobar).val = Except.ok false ∧
    (memTool.is_installed envBasicMem).val = Except.ok true := by
  refine ⟨?_, rfl, rfl⟩
  intro t env e out hspawn
  have hval : (t.is_installed env).val = Except.ok (pyIn (t.name ++ ":") out) := by
    simp [MCPTool.is_installed, hspawn]
  refine ⟨hval, ?_⟩
  rw [hval]
  constructor
  · intro h
    exact (pyIn_iff_occurs _ _).mp (Except.ok.inj h)
  · intro h
    rw [(pyIn_iff_occurs _ _).mpr h]

/-- Witness for C3's theorem at a concrete tool and host output. -/
theorem c3_marker_substring_semantics_witness :
    (memTool.is_installed envBasicMem).val = Except.ok (pyIn ("memory" ++ ":") "basic-memory: installed") ∧
    ((memTool.is_installed envBasicMem).val = Except.ok true ↔
      ("memory" ++ ":").data <:+: ("basic-memory: installed").data) :=
  c3_marker_substring_semantics.1 memTool envBasicMem 0 "basic-memory: installed" rfl

/-- Claim C4: if the installed-state check reports the tool already
installed, install emits the "already installed" success message and
returns true, and the only host command spawned is the list query — no
mutation command runs.  The operation leaves the external state
untouched and is deterministic in the environment, so a second call
returns true with the same (empty) mutation effect: no duplicate side
effect. -/
theorem c4_install_already_installed_noop :
    ∀ (t : MCPTool) (env : Env) (pd : Option String),
      (t.is_installed env).val = Except.ok true →
      (t.install env pd).val = Except.ok true ∧
      (t.install env pd).msgs = [⟨"success", t.name ++ " is already installed"⟩] ∧
      (t.install env pd).cmds = [listCmd] := by
  intro t env pd h
  have hh : t.is_installed env = ⟨[], [listCmd], Except.ok true⟩ := by
    rw [is_installed_eq t env, h]
  simp [MCPTool.install, hh, installCore]

/-- Witness for C4 at a concrete already-installed tool. -/
theorem c4_install_already_installed_noop_witness :
    (tTool.install envInstalled none).val = Except.ok true ∧
    (tTool.install envInstalled none).msgs = [⟨"success", "test-tool is already installed"⟩] ∧
    (tTool.install envInstalled none).cmds = [listCmd] :=
  c4_install_already_installed_noop tTool envInstalled none rfl

/-- Claim C8: if the installed-state check reports the tool not
installed, remove reports "not installed", returns true, and the only
host command spawned is the list query — the host removal command is
never invoked. -/
theorem c8_remove_not_installed_noop :
    ∀ (t : MCPTool) (env : Env),
      (t.is_installed env).val = Except.ok false →
      (t.remove env).val = Except.ok true ∧
      (t.remove env).msgs = [⟨"info", t.name ++ " is not installed"⟩] ∧
      (t.remove env).cmds = [listCmd] := by
  intro t env h
  have hh : t.is_installed env = ⟨[], [listCmd], Except.ok false⟩ := by
    rw [is_installed_eq t env, h]
  simp [MCPTool.remove, hh, removeCore]

/-- Witness for C8 at a concrete not-installed tool. -/
theorem c8_remove_not_installed_noop_witness :
    (tTool.remove env0).val = Except.ok true ∧
    (tTool.remove env0).msgs = [⟨"info", "test-tool is not installed"⟩] ∧
    (tTool.remove env0).cmds = [listCmd] :=
  c8_remove_not_installed_noop tTool env0 rfl

/-- Claim C5, counterexample: the claim asserts that every failure of
the installed-state query, including a failure to launch the host
process, fails soft with no error propagated.  In the code the `except`
clause catches only `subprocess.SubprocessError`; a launch failure
raises `FileNotFoundError`, which propagates to the caller. -/
theorem c5_counterexample :
    (tTool.is_installed envLaunchFail).val = Except.error PyExc.fileNotFoundError ∧
    ¬(tTool.is_installed envLaunchFail).val = Except.ok false := by
  refine ⟨rfl, fun h => ?_⟩
  rw [show (tTool.is_installed envLaunchFail).val = Except.error PyExc.fileNotFoundError from rfl] at h
  exact Except.noConfusion h

/-- Claim C5 (amended): a failure of the installed-state query raised as
`subprocess.SubprocessError` is caught and the tool is treated as not
installed; a completed run is never an error regardless of exit code
(the captured stdout is still substring-checked); but a failure to
launch the host process raises `FileNotFoundError`, which propagates to
the caller. -/
theorem c5_is_installed_failure_modes :
    ∀ (t : MCPTool) (env : Env),
      (env.spawn listCmd = SpawnOutcome.subprocessError →
        (t.is_installed env).val = Except.ok false) ∧
      (∀ (e : Nat) (out : String), env.spawn listCmd = SpawnOutcome.ran e out →
        (t.is_installed env).val = Except.ok (pyIn (t.name ++ ":") out)) ∧
      (env.spawn listCmd = SpawnOutcome.launchFailure →
        (t.is_installed env).val = Except.error PyExc.fileNotFoundError) := by
  intro t env
  refine ⟨fun h => ?_, fun e out h => ?_, fun h => ?_⟩ <;> simp [MCPTool.is_installed, h]

/-- Witness for C5's amended theorem at concrete environments. -/
theorem c5_is_installed_failure_modes_witness :
    (tTool.is_installed envSubErr).val = Except.ok false ∧
    (tTool.is_installed envLaunchFail).val = Except.error PyExc.fileNotFoundError :=
  ⟨(c5_is_installed_failure_modes tTool envSubErr).1 rfl,
   (c5_is_installed_failure_modes tTool envLaunchFail).2.2 rfl⟩

/-- Claim C9, counterexample: the claim asserts install returns false on
a failure to launch the host process.  In the code the `except` clause
catches only `subprocess.CalledProcessError`; when the spawned install
command fails to launch, `FileNotFoundError` propagates instead of a
false return. -/
theorem c9_counterexample :
    (tTool.install envInstallLaunchFail none).val = Except.error PyExc.fileNotFoundError ∧
    ¬(tTool.install envInstallLaunchFail none).val = Except.ok false := by
  refine ⟨rfl, fun h => ?_⟩
  rw [show (tTool.install envInstallLaunchFail none).val = Except.error PyExc.fileNotFoundError from rfl] at h
  exact Except.noConfusion h

/-- Claim C9 (amended): when install proceeds to invoke the host (the
tool was reported not installed), it returns true exactly on exit code
zero, returns false on a non-zero exit (`CalledProcessError` is caught),
spawns the substituted command exactly once besides the list query (no
retry), but a failure to launch the host process raises
`FileNotFoundError`, which propagates to the caller. -/
theorem c9_install_result_by_exit_code :
    ∀ (t : MCPTool) (env : Env) (pd : Option String),
      (t.is_installed env).val = Except.ok false →
      ((∀ out, env.spawn (substituteCommand t.install_command (pd.getD env.cwd)) =
          SpawnOutcome.ran 0 out → (t.install env pd).val = Except.ok true) ∧
       (∀ e out, env.spawn (substituteCommand t.install_command (pd.getD env.cwd)) =
          SpawnOutcome.ran (e + 1) out → (t.install env pd).val = Except.ok false) ∧
       (env.spawn (substituteCommand t.install_command (pd.getD env.cwd)) =
          SpawnOutcome.launchFailure →
          (t.install env pd).val = Except.error PyExc.fileNotFoundError) ∧
       (t.install env pd).cmds = [listCmd, substituteCommand t.install_command (pd.getD env.cwd)]) := by
  intro t env pd h
  have hh : t.is_installed env = ⟨[], [listCmd], Except.ok false⟩ := by
    rw [is_installed_eq t env, h]
  refine ⟨fun out hs => ?_, fun e out hs => ?_, fun hs => ?_, ?_⟩
  · simp [MCPTool.install, hh, installCore, hs]
  · simp [MCPTool.install, hh, installCore, hs]
  · simp [MCPTool.install, hh, installCore, hs]
  · rcases hs : env.spawn (substituteCommand t.install_command (pd.getD env.cwd)) with ⟨e, out⟩ | _ | _
    · cases e <;> simp [MCPTool.install, hh, installCore, hs]
    · simp [MCPTool.install, hh, installCore, hs]
    · simp [MCPTool.install, hh, installCore, hs]

/-- Witness for C9's amended theorem: a non-zero exit yields a false
return, with the substituted command spawned exactly once. -/
theorem c9_install_result_by_exit_code_witness :
    (tTool.install envInstallExit1 none).val = Except.ok false ∧
    (tTool.install envInstallExit1 none).cmds = [listCmd, ["echo", "installing", "/work"]] :=
  ⟨(c9_install_result_by_exit_code tTool envInstallExit1 none rfl).2.1 0 "" rfl,
   (c9_install_result_by_exit_code tTool envInstallExit1 none rfl).2.2.2⟩

/-- Claim C6: placeholder substitution maps each token of the install
command template through Python replace, preserving token count and
order; a token in which the placeholder does not occur is unchanged; the
bare placeholder token becomes exactly the resolved path, so the
template ["run", "--dir", "{project_dir}"] yields ["run", "--dir", path];
and omitting project_dir is the same as supplying the current working
directory. -/
theorem c6_project_dir_substitution :
    ∀ (tpl : List String) (pd : String),
      (substituteCommand tpl pd).length = tpl.length ∧
      (∀ i : Nat, (substituteCommand tpl pd)[i]? =
        (tpl[i]?).map fun tok => pyReplace tok "{project_dir}" pd) ∧
      (∀ tok, pyIn "{project_dir}" tok = false → pyReplace tok "{project_dir}" pd = tok) ∧
      pyReplace "{project_dir}" "{project_dir}" pd = pd ∧
      substituteCommand ["run", "--dir", "{project_dir}"] pd = ["run", "--dir", pd] ∧
      (∀ (t : MCPTool) (env : Env), t.install env none = t.install env (some env.cwd)) := by
  intro tpl pd
  refine ⟨by simp [substituteCommand],
          fun i => by simp [substituteCommand],
          fun tok h => pyReplace_of_not_in tok _ pd h,
          pyReplace_placeholder pd, ?_, fun t env => rfl⟩
  show [pyReplace "run" "{project_dir}" pd, pyReplace "--dir" "{project_dir}" pd,
        pyReplace "{project_dir}" "{project_dir}" pd] = ["run", "--dir", pd]
  rw [pyReplace_of_not_in "run" "{project_dir}" pd (by decide),
      pyReplace_of_not_in "--dir" "{project_dir}" pd (by decide),
      pyReplace_placeholder pd]

/-- Witness for C6 at the spec's example template and path. -/
theorem c6_project_dir_substitution_witness :
    substituteCommand ["run", "--dir", "{project_dir}"] "/x/y" = ["run", "--dir", "/x/y"] ∧
    pyReplace "run" "{project_dir}" "/x/y" = "run" :=
  ⟨(c6_project_dir_substitution ["run", "--dir", "{project_dir}"] "/x/y").2.2.2.2.1,
   (c6_project_dir_substitution ["run", "--dir", "{project_dir}"] "/x/y").2.2.1 "run" (by decide)⟩

/-- Claim C7: whenever no external config file is found, or opening and
parsing it raises, or a per-tool required field is missing (the caught
conversion failure), the constructed registry is exactly the hardcoded
default set, hence contains the three built-in tools; and in the failure
(as opposed to absence) cases a warning message is emitted. -/
theorem c7_fallback_contains_defaults :
    ∀ (config : Option JsonDoc) (path : String),
      (config = none ∨ config = some JsonDoc.malformed ∨
        (∃ raw, config = some (JsonDoc.object (some raw)) ∧ convertTools raw = none)) →
      (mkRegistry config path).fst.tools = defaultTools ∧
      "serena" ∈ (mkRegistry config path).fst.get_tool_names ∧
      "basic-memory" ∈ (mkRegistry config path).fst.get_tool_names ∧
      "gemini-cli" ∈ (mkRegistry config path).fst.get_tool_names ∧
      (config ≠ none → ∃ m ∈ (mkRegistry config path).snd, m.level = "warning") := by
  intro config path h
  have hT : (mkRegistry config path).fst.tools = defaultTools ∧
      (config ≠ none → ∃ m ∈ (mkRegistry config path).snd, m.level = "warning") := by
    rcases h with rfl | rfl | ⟨raw, rfl, hraw⟩
    · exact ⟨rfl, fun hc => absurd rfl hc⟩
    · exact ⟨rfl,
        fun _ => ⟨⟨"warning", "Failed to load external config: " ++ excMessage PyExc.jsonError⟩,
                  List.Mem.head _, rfl⟩⟩
    · constructor
      · show (loadTools (some (JsonDoc.object (some raw))) path).fst = defaultTools
        simp [loadTools, load_external_tools_config, hraw]
      · intro _
        refine ⟨⟨"warning", "Failed to load external config: " ++ excMessage PyExc.keyError⟩, ?_, rfl⟩
        show _ ∈ (loadTools (some (JsonDoc.object (some raw))) path).snd
        simp [loadTools, load_external_tools_config, hraw]
  have names : (mkRegistry config path).fst.get_tool_names = ["serena", "basic-memory", "gemini-cli"] := by
    unfold MCPToolRegistry.get_tool_names
    rw [hT.1]
    rfl
  refine ⟨hT.1, ?_, ?_, ?_, hT.2⟩ <;> rw [names] <;> simp

/-- Witness for C7 at a concrete malformed config. -/
theorem c7_fallback_contains_defaults_witness :
    (mkRegistry (some JsonDoc.malformed) "/home/u/.config/claude-extend/tools.json").fst.tools = defaultTools ∧
    "serena" ∈ (mkRegistry (some JsonDoc.malformed) "/home/u/.config/claude-extend/tools.json").fst.get_tool_names ∧
    "basic-memory" ∈ (mkRegistry (some JsonDoc.malformed) "/home/u/.config/claude-extend/tools.json").fst.get_tool_names ∧
    "gemini-cli" ∈ (mkRegistry (some JsonDoc.malformed) "/home/u/.config/claude-extend/tools.json").fst.get_tool_names ∧
    ((some JsonDoc.malformed : Option JsonDoc) ≠ none →
      ∃ m ∈ (mkRegistry (some JsonDoc.malformed) "/home/u/.config/claude-extend/tools.json").snd,
        m.level = "warning") :=
  c7_fallback_contains_defaults (some JsonDoc.malformed)
    "/home/u/.config/claude-extend/tools.json" (Or.inr (Or.inl rfl))

/-- Passing the keyword `registry` to MCPTool.install, whose signature
accepts only `project_dir`, raises TypeError before the body runs. -/
theorem callKw_registry_install (x : Eff Bool) :
    callKw installKeywordParams ["registry"] x = ⟨[], [], Except.error PyExc.typeError⟩ := rfl

/-- Passing the keyword `registry` to MCPTool.remove, whose signature
accepts no keyword arguments, raises TypeError before the body runs. -/
theorem callKw_registry_remove (x : Eff Bool) :
    callKw removeKeywordParams ["registry"] x = ⟨[], [], Except.error PyExc.typeError⟩ := rfl

/-- Passing the keyword `registry` to MCPTool.is_installed, whose
signature accepts no keyword arguments, raises TypeError before the
body runs. -/
theorem callKw_registry_is_installed (x : Eff Bool) :
    callKw isInstalledKeywordParams ["registry"] x = ⟨[], [], Except.error PyExc.typeError⟩ := rfl

/-- Claim C1, evaluation at the failing input: batch-adding
["serena", "basic-memory"] against the default registry, with all
prerequisites resolvable, aborts at serena's `tool.install(registry=...)`
call with TypeError — basic-memory is never processed and no host
command is spawned — contradicting the claim that the batch always
completes with every requested tool processed independently.  The
unknown-name part of the claim does hold: an unknown name is reported
and does not abort. -/
theorem c1_batch_aborted_by_type_error :
    cmdAddLoop defaultRegistry env0 ["serena", "basic-memory"] =
      ⟨[⟨"info", "Processing: Serena - Semantic code analysis and intelligent IDE assistant"⟩],
       [], Except.error PyExc.typeError⟩ ∧
    (processAddName defaultRegistry env0 "nonexistent").val = Except.ok () ∧
    (processAddName defaultRegistry env0 "nonexistent").msgs =
      [⟨"error", "Unknown tool: nonexistent"⟩,
       ⟨"info", "Available tools: serena, basic-memory, gemini-cli"⟩] :=
  ⟨rfl, rfl, rfl⟩

/-- Claim C2, evaluation at the failing input: there is no cache — each
`tool.is_installed()` call spawns `claude mcp list` afresh, so one
`get_installed_tools` call over the three default tools spawns the list
command three times, and two successive installed-state lookups spawn it
twice, contradicting the claim of at most one host query per Registry
lifetime. -/
theorem c2_no_cache_each_lookup_spawns :
    (defaultRegistry.get_installed_tools env0).cmds = [listCmd, listCmd, listCmd] ∧
    (tTool.is_installed env0).cmds ++ (tTool.is_installed env0).cmds = [listCmd, listCmd] :=
  ⟨rfl, rfl⟩

/-- Claim C10: main.py passes a `registry` keyword argument that the
MCPTool method signatures do not accept, so (1) the add path for a known
tool with met prerequisites, (2) the remove path for any known tool, and
(3) rendering the interactive selection menu (nonempty tool dict) all
raise TypeError with no host command — in particular no host mutation
command — ever spawned. -/
theorem c10_registry_kwarg_raises_type_error :
    (∀ (r : MCPToolRegistry) (env : Env) (name : String) (tool : MCPTool),
        r.get_tool name = some tool → tool.check_prerequisites env = true →
        (processAddName r env name).val = Except.error PyExc.typeError ∧
        (processAddName r env name).cmds = []) ∧
    (∀ (r : MCPToolRegistry) (env : Env) (name : String) (tool : MCPTool),
        r.get_tool name = some tool →
        (processRemoveName r env name).val = Except.error PyExc.typeError ∧
        (processRemoveName r env name).cmds = []) ∧
    (∀ (tools : List (String × MCPTool)) (env : Env), tools ≠ [] →
        (displayToolMenu tools env).val = Except.error PyExc.typeError ∧
        (displayToolMenu tools env).cmds = []) := by
  refine ⟨?_, ?_, ?_⟩
  · intro r env name tool hget hpre
    simp [processAddName, hget, hpre, callKw_registry_install, Eff.bind]
  · intro r env name tool hget
    simp [processRemoveName, hget, callKw_registry_remove, Eff.bind]
  · intro tools env htools
    match tools, htools with
    | (k, t) :: rest, _ =>
      simp [displayToolMenu, menuLoop, menuItem, callKw_registry_is_installed, Eff.bind,
            List.find?]

/-- Witness for C10 at the default registry and the serena tool. -/
theorem c10_registry_kwarg_raises_type_error_witness :
    ((processAddName defaultRegistry env0 "serena").val = Except.error PyExc.typeError ∧
     (processAddName defaultRegistry env0 "serena").cmds = []) ∧
    ((processRemoveName defaultRegistry env0 "serena").val = Except.error PyExc.typeError ∧
     (processRemoveName defaultRegistry env0 "serena").cmds = []) ∧
    ((displayToolMenu defaultTools env0).val = Except.error PyExc.typeError ∧
     (displayToolMenu defaultTools env0).cmds = []) :=
  ⟨c10_registry_kwarg_raises_type_error.1 defaultRegistry env0 "serena" _ rfl rfl,
   c10_registry_kwarg_raises_type_error.2.1 defaultRegistry env0 "serena" _ rfl,
   c10_registry_kwarg_raises_type_error.2.2 defaultTools env0 (List.cons_ne_nil _ _)⟩

end ClaudeExtend
